import Mathlib

/-!
# Verification of the replicated chat-server core (`server.py`)

This file gives a shallow embedding of the request/state machine of the
replicated chat server: the per-node SQLite state (`users`, `messages`,
`commits` tables), the request applier `execute_request` with its
per-`request_type` handlers, the `Coordinator` / `GetCommits` RPC handlers,
commit synchronization, and the Bully election driver `start_election`.

Modelling conventions:

* The three SQLite tables are Lean lists kept in insertion (rowid) order.
  `commits.id` (AUTOINCREMENT) is modelled as `max existing id + 1`.
* Requests travel as JSON blobs; the embedding works with the parsed
  structure directly (one record with all fields that any handler reads,
  mirroring the Python dicts).
* Python exceptions are modelled by `Except PyError` (for handlers, where
  the enclosing `with sqlite3.connect` rolls the transaction back, so an
  error leaves the database unchanged) or by a `state × Option PyError`
  pair (for the RPC/election drivers, where an escaping exception leaves
  the partially mutated object state behind).
* The SQLite statements of the source are modelled including their failure
  modes: an `INSERT` whose value count differs from the column count, a
  `SELECT` of a non-existent column, and an empty `IN ()` list all raise
  `sqlite3.OperationalError`.
* Remote peers are an environment parameter: an RPC reply is `Option`/list
  data, `none` standing for a `grpc.RpcError` (which the source swallows).
-/

/-- A row of the `messages` table:
`(id, sender, recipient, body, timestamp, read)`.  The `timestamp REAL`
column is modelled with `Int`; the claims only compare timestamps. -/
structure Message where
  id : String
  sender : String
  recipient : String
  body : String
  timestamp : Int
  read : Bool
deriving DecidableEq, Repr

/-- The `message` payload of a SEND_MESSAGE request (no `read` field:
the sender does not supply one). -/
structure MsgPayload where
  id : String
  sender : String
  recipient : String
  body : String
  timestamp : Int
deriving DecidableEq, Repr

/-- A parsed client request.  The Python side is a JSON dict; this record
carries every key any handler reads, with defaults for the keys a given
`request_type` does not use. -/
structure Request where
  id : String
  request_type : String
  action_type : String := ""
  username : String := ""
  password : String := ""
  pattern : String := ""
  message : MsgPayload := ⟨"", "", "", "", 0⟩
  message_ids : List String := []
deriving DecidableEq, Repr

/-- The view of a message returned by GET_MESSAGES: the handler selects
only `sender, body, timestamp, read`. -/
structure MsgView where
  sender : String
  body : String
  timestamp : Int
  read : Bool
deriving DecidableEq, Repr

/-- A response dict: `\x7bstatus: "OK", ...\x7d` or
`\x7bstatus: "ERROR", error_message: ...\x7d`. -/
inductive Response where
  | ok : Response
  | okMessages (messages : List MsgView) : Response
  | okUsernames (usernames : List String) : Response
  | error (error_message : String) : Response
deriving DecidableEq, Repr

/-- The Python exceptions the modelled code can raise. -/
inductive PyError where
  | valueError (msg : String) : PyError
  | typeError (msg : String) : PyError
  | operationalError (msg : String) : PyError
  | assertionError (msg : String) : PyError
deriving DecidableEq, Repr

/-- The durable per-node state: the `users`, `messages` and `commits`
tables, each in rowid (insertion) order. -/
structure DbState where
  users : List (String × String)
  messages : List Message
  commits : List (Nat × Request)
deriving DecidableEq, Repr

/-- The full node state: database plus the in-memory fields of
`ChatServer` that the claims touch. -/
structure NodeState where
  server_id : Nat
  db : DbState
  request_ids : List String
  leader_id : Option Nat := none
  election_in_progress : Bool := false
deriving DecidableEq, Repr

/-- `SELECT password FROM users WHERE username = ?` followed by
`fetchone()`: the first matching row, if any. -/
def lookupPassword : List (String × String) → String → Option String
  | [], _ => none
  | (u, p) :: rest, name => if u = name then some p else lookupPassword rest name

/-- `SELECT username FROM users WHERE username = ?` has a row iff the
username is present. -/
def userExists (users : List (String × String)) (name : String) : Bool :=
  (lookupPassword users name).isSome

/-- `get_latest_commit_id`: `SELECT MAX(id) FROM commits`, with `0` for an
empty table. -/
def get_latest_commit_id (db : DbState) : Nat :=
  db.commits.foldl (fun acc c => max acc c.1) 0

/-- `INSERT INTO commits (request) VALUES (?)`: append a row whose
AUTOINCREMENT id is one above the current maximum. -/
def append_commit (db : DbState) (req : Request) : DbState :=
  { db with commits := db.commits ++ [(get_latest_commit_id db + 1, req)] }

/-- `create_error`: build an ERROR response dict. -/
def create_error (error_message : String) : Response :=
  Response.error error_message

/-- Insertion of a message into `messages` ordered by `timestamp`
(used to model `ORDER BY timestamp`). -/
def insertByTimestamp (m : Message) : List Message → List Message
  | [] => [m]
  | x :: xs =>
    if m.timestamp < x.timestamp then m :: x :: xs
    else x :: insertByTimestamp m xs

/-- Stable sort by `timestamp`, modelling `ORDER BY timestamp`. -/
def sortByTimestamp : List Message → List Message
  | [] => []
  | x :: xs => insertByTimestamp x (sortByTimestamp xs)

/-- Split a `[...]` class pattern at its closing `]`: returns the class
body and the remaining pattern. -/
def splitClass : List Char → Option (List Char × List Char)
  | [] => none
  | c :: rest =>
    if c = ']' then some ([], rest)
    else
      match splitClass rest with
      | none => none
      | some (body, r) => some (c :: body, r)

/-- The rest of the pattern returned by `splitClass` is no longer than its
input. -/
theorem splitClass_length_le :
    ∀ ps body rest, splitClass ps = some (body, rest) → rest.length ≤ ps.length := by
  intro ps
  induction ps with
  | nil => intro body rest h; simp [splitClass] at h
  | cons c cs ih =>
    intro body rest h
    simp only [splitClass] at h
    split at h
    · simp only [Option.some.injEq, Prod.mk.injEq] at h
      simp [← h.2, List.length_cons]
    · split at h
      · simp at h
      · rename_i b2 r2 hs
        simp only [Option.some.injEq, Prod.mk.injEq] at h
        have := ih b2 r2 hs
        simp [← h.2, List.length_cons]
        omega

/-- Membership of `c` in a class body: single characters and `a-b`
ranges. -/
def classBodyMatches : List Char → Char → Bool
  | [], _ => false
  | a :: '-' :: b :: rest, c => (a ≤ c && c ≤ b) || classBodyMatches rest c
  | a :: rest, c => (a == c) || classBodyMatches rest c

/-- Match a `[...]` class body against `c`, with `^` negation. -/
def classMatches (body : List Char) (c : Char) : Bool :=
  match body with
  | '^' :: rest => !(classBodyMatches rest c)
  | _ => classBodyMatches body c

/-- SQLite `GLOB` matching on character lists: `*`, `?`, and `[...]`
classes (with ranges and `^` negation), case sensitive. -/
def globChars (p s : List Char) : Bool :=
  match p, s with
  | [], [] => true
  | [], _ :: _ => false
  | '*' :: ps, s =>
    globChars ps s ||
      (match s with
       | [] => false
       | _ :: s2 => globChars ('*' :: ps) s2)
  | '?' :: ps, _ :: s2 => globChars ps s2
  | '?' :: _, [] => false
  | '[' :: ps, c :: s2 =>
    (match hs : splitClass ps with
     | none => false
     | some (body, rest) =>
       classMatches body c && globChars rest s2)
  | '[' :: _, [] => false
  | q :: ps, c :: s2 => q == c && globChars ps s2
  | _ :: _, [] => false
termination_by (p.length, s.length)
decreasing_by
  all_goals simp_wf
  · omega
  · omega
  · omega
  · have := splitClass_length_le _ _ _ hs
    omega
  · omega

/-- `username GLOB pattern`. -/
def globMatch (pattern s : String) : Bool :=
  globChars pattern.toList s.toList

/-- `handle_auth` (`request_type = "AUTH"`).
CREATE_USER: reject a duplicate username, otherwise insert the user row
and append the request to `commits` in one transaction.
LOGIN: `db_password, = cursor.fetchone()` raises `TypeError` when the user
does not exist; otherwise compare the stored hash.  Any other
`action_type` raises `ValueError`. -/
def handle_auth (req : Request) (db : DbState) : Except PyError (Response × DbState) :=
  if req.request_type ≠ "AUTH" then
    Except.error (PyError.assertionError "request_type must be AUTH")
  else if req.action_type = "CREATE_USER" then
    if userExists db.users req.username then
      Except.ok (create_error "Username already exists.", db)
    else
      Except.ok (Response.ok,
        append_commit { db with users := db.users ++ [(req.username, req.password)] } req)
  else if req.action_type = "LOGIN" then
    match lookupPassword db.users req.username with
    | none =>
      Except.error (PyError.typeError "cannot unpack non-iterable NoneType object")
    | some db_password =>
      if req.password ≠ db_password then
        Except.ok (create_error "Invalid username or password.", db)
      else
        Except.ok (Response.ok, db)
  else
    Except.error (PyError.valueError "Invalid authentication action type.")

/-- `handle_get_messages`: select `sender, body, timestamp, read` of the
messages whose `recipient` is the requested username, `ORDER BY
timestamp`.  Read-only: no commit is appended. -/
def handle_get_messages (req : Request) (db : DbState) : Except PyError (Response × DbState) :=
  if req.request_type ≠ "GET_MESSAGES" then
    Except.error (PyError.assertionError "request_type must be GET_MESSAGES")
  else
    let rows := sortByTimestamp (db.messages.filter (fun m => m.recipient = req.username))
    Except.ok (Response.okMessages
      (rows.map (fun m => ⟨m.sender, m.body, m.timestamp, m.read⟩)), db)

/-- `handle_list_users`: usernames matching the GLOB pattern, in table
order.  Read-only. -/
def handle_list_users (req : Request) (db : DbState) : Except PyError (Response × DbState) :=
  if req.request_type ≠ "LIST_USERS" then
    Except.error (PyError.assertionError "request_type must be LIST_USERS")
  else
    Except.ok (Response.okUsernames
      ((db.users.filter (fun u => globMatch req.pattern u.1)).map (fun u => u.1)), db)

/-- `handle_send_message`: reject a missing recipient; otherwise the source
runs `INSERT INTO messages VALUES (?, ?, ?, ?, ?)` — five values for the
six-column `messages` table — which SQLite rejects, so the insert path
always raises `sqlite3.OperationalError` and the transaction rolls back. -/
def handle_send_message (req : Request) (db : DbState) : Except PyError (Response × DbState) :=
  if req.request_type ≠ "SEND_MESSAGE" then
    Except.error (PyError.assertionError "request_type must be SEND_MESSAGE")
  else if ¬ userExists db.users req.message.recipient then
    Except.ok (create_error "Recipient does not exist.", db)
  else
    Except.error (PyError.operationalError
      "table messages has 6 columns but 5 values were supplied")

/-- `handle_read_messages`: `UPDATE messages SET read = 1 WHERE id in
(...)` over the listed ids, plus the commit append, in one transaction.
With an empty id list the placeholder expansion yields `IN ()`, which is a
SQLite syntax error. -/
def handle_read_messages (req : Request) (db : DbState) : Except PyError (Response × DbState) :=
  if req.request_type ≠ "READ_MESSAGES" then
    Except.error (PyError.assertionError "request_type must be READ_MESSAGES")
  else if req.message_ids.isEmpty then
    Except.error (PyError.operationalError "near \")\": syntax error")
  else
    Except.ok (Response.ok,
      append_commit
        { db with
          messages := db.messages.map
            (fun m => if m.id ∈ req.message_ids then { m with read := true } else m) }
        req)

/-- `handle_delete_messages`: `DELETE FROM messages WHERE id in (...)`
plus the commit append; the empty list again yields the invalid `IN ()`. -/
def handle_delete_messages (req : Request) (db : DbState) : Except PyError (Response × DbState) :=
  if req.request_type ≠ "DELETE_MESSAGES" then
    Except.error (PyError.assertionError "request_type must be DELETE_MESSAGES")
  else if req.message_ids.isEmpty then
    Except.error (PyError.operationalError "near \")\": syntax error")
  else
    Except.ok (Response.ok,
      append_commit
        { db with messages := db.messages.filter (fun m => m.id ∉ req.message_ids) }
        req)

/-- `handle_delete_user`: `DELETE FROM users WHERE username = ?` plus the
commit append.  The source issues no delete against `messages`: rows whose
`recipient` is the deleted user stay in the table. -/
def handle_delete_user (req : Request) (db : DbState) : Except PyError (Response × DbState) :=
  if req.request_type ≠ "DELETE_USER" then
    Except.error (PyError.assertionError "request_type must be DELETE_USER")
  else
    Except.ok (Response.ok,
      append_commit { db with users := db.users.filter (fun u => u.1 ≠ req.username) } req)

/-- The `match request["request_type"]` dispatch of `execute_request`;
an unknown type raises `ValueError("Invalid request type.")`. -/
def dispatch (req : Request) (db : DbState) : Except PyError (Response × DbState) :=
  if req.request_type = "AUTH" then handle_auth req db
  else if req.request_type = "GET_MESSAGES" then handle_get_messages req db
  else if req.request_type = "LIST_USERS" then handle_list_users req db
  else if req.request_type = "SEND_MESSAGE" then handle_send_message req db
  else if req.request_type = "READ_MESSAGES" then handle_read_messages req db
  else if req.request_type = "DELETE_MESSAGES" then handle_delete_messages req db
  else if req.request_type = "DELETE_USER" then handle_delete_user req db
  else Except.error (PyError.valueError "Invalid request type.")

/-- `execute_request`: drop a request whose id was already seen, returning
the empty string `""` — modelled as `none`, distinguishable from every
real response `some r` (whose JSON encoding is non-empty).  Otherwise
dispatch, and on success remember the request id.  A raised exception
leaves the node state unchanged (the handler transaction rolled back and
the id was not yet added). -/
def execute_request (st : NodeState) (req : Request) :
    Except PyError (Option Response × NodeState) :=
  if req.id ∈ st.request_ids then
    Except.ok (none, st)
  else
    match dispatch req st.db with
    | Except.error e => Except.error e
    | Except.ok (resp, db2) =>
      Except.ok (some resp, { st with db := db2, request_ids := req.id :: st.request_ids })

/-- `get_request_ids`: the ids of the requests recorded in `commits`
(what the in-memory dedup set is rebuilt from at startup). -/
def get_request_ids (db : DbState) : List String :=
  db.commits.map (fun c => c.2.id)

/-- The `GetCommits` RPC handler.  Its query is
`SELECT id, query FROM commits WHERE id > ? ORDER BY id`, but the
`commits` table created by `init_db` has columns `(id, request)` — there
is no `query` column, so SQLite rejects the statement before reading any
row and every call raises `sqlite3.OperationalError`. -/
def GetCommits (db : DbState) (latest_commit_id : Nat) :
    Except PyError (List (Nat × Request)) :=
  Except.error (PyError.operationalError "no such column: query")

/-- What §6 of the specification says `GetCommits` returns: the commits
with `seq` strictly greater than `latest_commit_id`, in `seq` order.
(Modelled from the spec, for comparison with the source handler.) -/
def getCommitsSpec (db : DbState) (latest_commit_id : Nat) : List (Nat × Request) :=
  db.commits.filter (fun c => latest_commit_id < c.1)

/-- `apply_commits`: run `execute_request` on each commit blob in order.
An exception stops the loop and escapes, leaving the state reached so
far. -/
def apply_commits : NodeState → List (Nat × Request) → NodeState × Option PyError
  | st, [] => (st, none)
  | st, c :: cs =>
    match execute_request st c.2 with
    | Except.error e => (st, some e)
    | Except.ok (_, st2) => apply_commits st2 cs

/-- The `Coordinator` RPC handler: assert that the announced leader id is
strictly greater than our own (otherwise `AssertionError` escapes and
nothing changes), apply every attached commit whose id exceeds the local
maximum, then record the new leader. -/
def Coordinator (st : NodeState) (leader_id : Nat) (commit_history : List (Nat × Request)) :
    NodeState × Option PyError :=
  if leader_id > st.server_id then
    match apply_commits st
        (commit_history.filter (fun c => get_latest_commit_id st.db < c.1)) with
    | (st2, some e) => (st2, some e)
    | (st2, none) => ({ st2 with leader_id := some leader_id }, none)
  else
    (st, some (PyError.assertionError "Leader ID must be larger than our own ID."))

/-- `synchronize_commits`: ask each peer for the commits past our latest
id and apply what comes back.  A peer reply is an environment input:
`none` is a `grpc.RpcError` (swallowed by the `except` clause), `some cs`
a commit list.  A non-RPC exception raised while applying escapes. -/
def synchronize_commits (st : NodeState) :
    List (Option (List (Nat × Request))) → NodeState × Option PyError
  | [] => (st, none)
  | none :: rest => synchronize_commits st rest
  | some cs :: rest =>
    match apply_commits st cs with
    | (st2, some e) => (st2, some e)
    | (st2, none) => synchronize_commits st2 rest

/-- `start_election` (Bully).  `higherResponder` says whether some peer
with a greater id answered the `Election` RPC in time; `peerReplies` are
the `GetCommits` replies seen during the winner's synchronization.  If an
election is already in progress the call returns at once.  Otherwise the
flag is raised and the leader cleared; on rejection the flag is dropped
again; on a win the node synchronizes, broadcasts (state-neutral), and
installs itself.  An exception escaping synchronization leaves the object
as it was at the raise point — the flag still set. -/
def start_election (st : NodeState) (higherResponder : Bool)
    (peerReplies : List (Option (List (Nat × Request)))) : NodeState × Option PyError :=
  if st.election_in_progress then
    (st, none)
  else
    let st1 := { st with leader_id := none, election_in_progress := true }
    if higherResponder then
      ({ st1 with election_in_progress := false }, none)
    else
      match synchronize_commits st1 peerReplies with
      | (st2, some e) => (st2, some e)
      | (st2, none) =>
        ({ st2 with leader_id := some st.server_id, election_in_progress := false }, none)

/-! ## Basic lemmas about the request applier -/

/-- A successful `execute_request` keeps every previously seen id. -/
theorem execute_request_ids_mono {st : NodeState} {req : Request}
    {x : Option Response} {st' : NodeState}
    (h : execute_request st req = Except.ok (x, st')) :
    ∀ i, i ∈ st.request_ids → i ∈ st'.request_ids := by
  intro i hi
  unfold execute_request at h
  split at h
  · simp only [Except.ok.injEq, Prod.mk.injEq] at h
    rw [← h.2]
    exact hi
  · cases hd : dispatch req st.db with
    | error e => rw [hd] at h; cases h
    | ok p =>
      rw [hd] at h
      simp only [Except.ok.injEq, Prod.mk.injEq] at h
      rw [← h.2]
      exact List.mem_cons_of_mem _ hi

/-- A successful `execute_request` leaves the request id marked as seen. -/
theorem execute_request_id_seen {st : NodeState} {req : Request}
    {x : Option Response} {st' : NodeState}
    (h : execute_request st req = Except.ok (x, st')) :
    req.id ∈ st'.request_ids := by
  unfold execute_request at h
  split at h
  · rename_i hmem
    simp only [Except.ok.injEq, Prod.mk.injEq] at h
    rw [← h.2]
    exact hmem
  · cases hd : dispatch req st.db with
    | error e => rw [hd] at h; cases h
    | ok p =>
      rw [hd] at h
      simp only [Except.ok.injEq, Prod.mk.injEq] at h
      rw [← h.2]
      exact List.mem_cons_self _ _

/-- `execute_request` never touches the in-memory election fields. -/
theorem execute_request_election_fields {st : NodeState} {req : Request}
    {x : Option Response} {st' : NodeState}
    (h : execute_request st req = Except.ok (x, st')) :
    st'.election_in_progress = st.election_in_progress ∧
      st'.leader_id = st.leader_id ∧ st'.server_id = st.server_id := by
  unfold execute_request at h
  split at h
  · simp only [Except.ok.injEq, Prod.mk.injEq] at h
    rw [← h.2]
    exact ⟨rfl, rfl, rfl⟩
  · cases hd : dispatch req st.db with
    | error e => rw [hd] at h; cases h
    | ok p =>
      rw [hd] at h
      simp only [Except.ok.injEq, Prod.mk.injEq] at h
      rw [← h.2]
      exact ⟨rfl, rfl, rfl⟩

/-- A handler that returns an ERROR response never mutates the database:
the only error-response paths are the duplicate-username check of
CREATE_USER, the wrong-password check of LOGIN, and the missing-recipient
check of SEND_MESSAGE, and each returns before writing. -/
theorem dispatch_error_response {req : Request} {db : DbState}
    {m : String} {db' : DbState}
    (h : dispatch req db = Except.ok (Response.error m, db')) : db' = db := by
  unfold dispatch handle_auth handle_get_messages handle_list_users handle_send_message
    handle_read_messages handle_delete_messages handle_delete_user create_error at h
  repeat' split at h
  all_goals simp_all

/-- A fully successful `apply_commits` keeps old ids and marks the id of
every applied commit. -/
theorem apply_commits_ids {cs : List (Nat × Request)} :
    ∀ {st st' : NodeState}, apply_commits st cs = (st', none) →
      (∀ i, i ∈ st.request_ids → i ∈ st'.request_ids) ∧
        ∀ c ∈ cs, c.2.id ∈ st'.request_ids := by
  induction cs with
  | nil =>
    intro st st' h
    simp only [apply_commits, Prod.mk.injEq] at h
    rw [← h.1]
    exact ⟨fun i hi => hi, by simp⟩
  | cons c cs ih =>
    intro st st' h
    unfold apply_commits at h
    cases he : execute_request st c.2 with
    | error e => rw [he] at h; simp at h
    | ok p =>
      rw [he] at h
      obtain ⟨x, st2⟩ := p
      have hrec := ih h
      refine ⟨fun i hi => hrec.1 i (execute_request_ids_mono he i hi), ?_⟩
      intro d hd
      rcases List.mem_cons.mp hd with hHead | hTail
      · rw [hHead]
        exact hrec.1 c.2.id (execute_request_id_seen he)
      · exact hrec.2 d hTail

/-- `apply_commits` (with or without an escaping exception) never touches
the election fields. -/
theorem apply_commits_election_fields {cs : List (Nat × Request)} :
    ∀ {st : NodeState},
      (apply_commits st cs).1.election_in_progress = st.election_in_progress ∧
        (apply_commits st cs).1.server_id = st.server_id := by
  induction cs with
  | nil => intro st; exact ⟨rfl, rfl⟩
  | cons c cs ih =>
    intro st
    unfold apply_commits
    cases he : execute_request st c.2 with
    | error e => exact ⟨rfl, rfl⟩
    | ok p =>
      obtain ⟨x, st2⟩ := p
      have hf := execute_request_election_fields he
      exact ⟨(@ih st2).1.trans hf.1, (@ih st2).2.trans hf.2.2⟩

/-- `synchronize_commits` never touches the election fields either. -/
theorem synchronize_commits_election_fields
    {replies : List (Option (List (Nat × Request)))} :
    ∀ {st : NodeState},
      (synchronize_commits st replies).1.election_in_progress = st.election_in_progress ∧
        (synchronize_commits st replies).1.server_id = st.server_id := by
  induction replies with
  | nil => intro st; exact ⟨rfl, rfl⟩
  | cons r rest ih =>
    intro st
    cases r with
    | none => exact ih
    | some cs =>
      unfold synchronize_commits
      cases ha : apply_commits st cs with
      | mk st2 o =>
        cases o with
        | none =>
          have hf : st2.election_in_progress = st.election_in_progress ∧
              st2.server_id = st.server_id := by
            have := @apply_commits_election_fields cs st
            rw [ha] at this
            exact this
          exact ⟨(@ih st2).1.trans hf.1, (@ih st2).2.trans hf.2⟩
        | some e =>
          have hf := @apply_commits_election_fields cs st
          rw [ha] at hf
          exact hf

/-! ## Concrete fixtures -/

/-- A freshly initialized node (empty database, nothing seen). -/
def freshNode : NodeState :=
  { server_id := 1, db := ⟨[], [], []⟩, request_ids := [] }

/-- A CREATE_USER request for `jason` (wire shape of the server:
`request_type = "AUTH"`, `action_type = "CREATE_USER"`). -/
def createJason : Request :=
  { id := "r1", request_type := "AUTH", action_type := "CREATE_USER",
    username := "jason", password := "pw" }

/-- The node after applying `createJason` to `freshNode`. -/
def jasonNode : NodeState :=
  { server_id := 1,
    db := ⟨[("jason", "pw")], [], [(1, createJason)]⟩,
    request_ids := ["r1"] }

/-- A second CREATE_USER for the same username under a fresh request id. -/
def createJason2 : Request :=
  { createJason with id := "r2" }

/-- The node after the duplicate CREATE_USER: only the dedup set grew. -/
def dupNode : NodeState :=
  { jasonNode with request_ids := ["r2", "r1"] }

/-! ## C1 — CREATE_USER -/

/-- C1, counterexample: the claim reads a CREATE_USER request as
`request_type = "CREATE_USER"`, which is what the repository client
(`api.py`) sends; `execute_request` dispatches only on
`request_type = "AUTH"` and raises `ValueError("Invalid request type.")`
for the literal CREATE_USER type instead of answering
`\x7bstatus:"OK"\x7d`. -/
theorem create_user_wire_rejected :
    execute_request freshNode
      { id := "w1", request_type := "CREATE_USER", username := "jason", password := "pw" } =
      Except.error (PyError.valueError "Invalid request type.") := by
  rfl

/-- C1 (amended): for every request with `request_type = "AUTH"` and
`action_type = "CREATE_USER"` whose id is unseen: if the username is not
in `users` the user row is inserted (with a commit appended) and the
response is OK; if the username exists the response is the
"Username already exists." error and `users`, `messages`, `commits` are
unchanged (only the dedup set grows). -/
theorem create_user_contract (st : NodeState) (req : Request)
    (hT : req.request_type = "AUTH") (hA : req.action_type = "CREATE_USER")
    (hNew : req.id ∉ st.request_ids) :
    (userExists st.db.users req.username = false →
      execute_request st req = Except.ok (some Response.ok,
        { st with
          db := append_commit
            { st.db with users := st.db.users ++ [(req.username, req.password)] } req,
          request_ids := req.id :: st.request_ids })) ∧
    (userExists st.db.users req.username = true →
      execute_request st req = Except.ok (some (Response.error "Username already exists."),
        { st with request_ids := req.id :: st.request_ids })) := by
  constructor
  · intro hU
    simp [execute_request, if_neg hNew, dispatch, hT, hA, handle_auth, create_error, hU]
  · intro hU
    simp [execute_request, if_neg hNew, dispatch, hT, hA, handle_auth, create_error, hU]

/-- C1, witness: both branches of the contract at concrete inputs. -/
theorem create_user_contract_witness :
    (userExists freshNode.db.users "jason" = false ∧
      execute_request freshNode createJason = Except.ok (some Response.ok, jasonNode)) ∧
    (userExists jasonNode.db.users "jason" = true ∧
      execute_request jasonNode createJason2 =
        Except.ok (some (Response.error "Username already exists."), dupNode)) := by
  refine ⟨⟨by decide, ?_⟩, ⟨by decide, ?_⟩⟩
  · exact (create_user_contract freshNode createJason rfl rfl (by decide)).1 (by decide)
  · exact (create_user_contract jasonNode createJason2 rfl rfl (by decide)).2 (by decide)

/-! ## C2 — deduplication / idempotence -/

/-- C2: a request whose id is already in the node's dedup set yields the
empty response (`none`, the model of the empty string, distinguishable by
construction from every first response `some r`) and leaves the whole
node state — `users`, `messages`, `commits`, `request_ids` — unchanged;
consequently, a second application of any successfully applied request is
exactly such a no-op. -/
theorem execute_request_dedup (st : NodeState) (req : Request) :
    (req.id ∈ st.request_ids → execute_request st req = Except.ok (none, st)) ∧
    (∀ r st', execute_request st req = Except.ok (some r, st') →
      execute_request st' req = Except.ok (none, st')) := by
  constructor
  · intro h
    unfold execute_request
    rw [if_pos h]
  · intro r st' h
    have hseen := execute_request_id_seen h
    unfold execute_request
    rw [if_pos hseen]

/-- C2, witness: the seen-id no-op and the apply-twice law at concrete
inputs. -/
theorem execute_request_dedup_witness :
    ("r1" ∈ jasonNode.request_ids ∧
      execute_request jasonNode createJason = Except.ok (none, jasonNode)) ∧
    (execute_request freshNode createJason = Except.ok (some Response.ok, jasonNode) ∧
      execute_request jasonNode createJason = Except.ok (none, jasonNode)) := by
  refine ⟨⟨by decide, ?_⟩, ⟨?_, ?_⟩⟩
  · exact (execute_request_dedup jasonNode createJason).1 (by decide)
  · rfl
  · exact (execute_request_dedup freshNode createJason).2 Response.ok jasonNode rfl

/-! ## C3 — SEND_MESSAGE -/

/-- C3: SEND_MESSAGE to an existing recipient never returns OK — the
insert statement supplies five values for the six-column `messages`
table, so the handler raises `sqlite3.OperationalError` (the repository's
own `test_suite.py` expects `\x7bstatus:"OK"\x7d` here, and the spec says the
message then shows up in GET_MESSAGES). -/
theorem send_message_raises (st : NodeState) (req : Request)
    (hT : req.request_type = "SEND_MESSAGE") (hNew : req.id ∉ st.request_ids)
    (hRec : userExists st.db.users req.message.recipient = true) :
    execute_request st req =
      Except.error
        (PyError.operationalError "table messages has 6 columns but 5 values were supplied") := by
  simp [execute_request, if_neg hNew, dispatch, hT, handle_send_message, hRec]

/-- C3, witness: the exact scenario of the spec (message to the existing
user `jason`). -/
theorem send_message_raises_witness :
    userExists jasonNode.db.users "jason" = true ∧
    execute_request jasonNode
      { id := "s1", request_type := "SEND_MESSAGE",
        message := ⟨"m1", "daniel", "jason", "Hello world!", 1⟩ } =
      Except.error
        (PyError.operationalError "table messages has 6 columns but 5 values were supplied") :=
  ⟨by decide,
    send_message_raises jasonNode
      { id := "s1", request_type := "SEND_MESSAGE",
        message := ⟨"m1", "daniel", "jason", "Hello world!", 1⟩ }
      rfl (by decide) (by decide)⟩

/-! ## C4 — DELETE_USER -/

/-- A message addressed to `rajiv`. -/
def rajivMsg : Message :=
  { id := "m1", sender := "daniel", recipient := "rajiv",
    body := "how is it going?", timestamp := 5, read := false }

/-- A node holding the user `rajiv` and one message addressed to him. -/
def rajivNode : NodeState :=
  { server_id := 1, db := ⟨[("rajiv", "pw")], [rajivMsg], []⟩, request_ids := [] }

/-- The DELETE_USER request for `rajiv`. -/
def deleteRajiv : Request :=
  { id := "d1", request_type := "DELETE_USER", username := "rajiv" }

/-- The node after DELETE_USER: the user row is gone, but the message
addressed to `rajiv` is still in `messages`. -/
def rajivDeleted : NodeState :=
  { server_id := 1,
    db := ⟨[], [rajivMsg], [(1, deleteRajiv)]⟩,
    request_ids := ["d1"] }

/-- C4: applying DELETE_USER for `rajiv` deletes the user row and returns
OK, but — against the claim, the spec and `test_suite.py` — the handler
issues no delete on `messages`: the message addressed to `rajiv` stays,
and a subsequent GET_MESSAGES for `rajiv` returns it instead of the empty
list. -/
theorem delete_user_keeps_messages :
    execute_request rajivNode deleteRajiv = Except.ok (some Response.ok, rajivDeleted) ∧
    rajivDeleted.db.users = [] ∧
    rajivDeleted.db.messages = [rajivMsg] ∧
    handle_get_messages { id := "g1", request_type := "GET_MESSAGES", username := "rajiv" }
        rajivDeleted.db =
      Except.ok (Response.okMessages [⟨"daniel", "how is it going?", 5, false⟩],
        rajivDeleted.db) :=
  ⟨rfl, rfl, rfl, rfl⟩

/-! ## C10 — validation errors still mark the request id -/

/-- C10: whenever a handler answers with a validation-error response,
`execute_request` still adds the request id to the in-memory dedup set
although the database — `commits` included — is untouched; a second
submission of the same id therefore gets the empty dedup response, and
since the startup dedup set is rebuilt from `commits` alone
(`get_request_ids`), the id is forgotten after a restart. -/
theorem error_response_marks_id (st : NodeState) (req : Request) (m : String) (st' : NodeState)
    (h : execute_request st req = Except.ok (some (Response.error m), st')) :
    st'.db = st.db ∧
    st'.request_ids = req.id :: st.request_ids ∧
    execute_request st' req = Except.ok (none, st') ∧
    get_request_ids st'.db = get_request_ids st.db := by
  have hmain : st'.db = st.db ∧ st'.request_ids = req.id :: st.request_ids := by
    unfold execute_request at h
    split at h
    · simp at h
    · cases hd : dispatch req st.db with
      | error e => rw [hd] at h; cases h
      | ok p =>
        obtain ⟨resp, db2⟩ := p
        rw [hd] at h
        simp only [Except.ok.injEq, Prod.mk.injEq] at h
        obtain rfl : resp = Response.error m := Option.some.inj h.1
        have hdb : db2 = st.db := dispatch_error_response hd
        rw [← h.2]
        exact ⟨hdb, rfl⟩
  refine ⟨hmain.1, hmain.2, ?_, by rw [hmain.1]⟩
  unfold execute_request
  rw [if_pos (by rw [hmain.2]; exact List.mem_cons_self _ _)]

/-- C10, witness: the duplicate CREATE_USER of the spec scenario. -/
theorem error_response_marks_id_witness :
    execute_request jasonNode createJason2 =
      Except.ok (some (Response.error "Username already exists."), dupNode) ∧
    (dupNode.db = jasonNode.db ∧
      dupNode.request_ids = "r2" :: jasonNode.request_ids ∧
      execute_request dupNode createJason2 = Except.ok (none, dupNode) ∧
      get_request_ids dupNode.db = get_request_ids jasonNode.db) :=
  ⟨rfl, error_response_marks_id jasonNode createJason2 "Username already exists." dupNode rfl⟩

/-! ## C5 — LOGIN for a missing user -/

/-- C5: a LOGIN for a username absent from `users` never returns the
"Invalid username or password." response the claim (and `test_auth` in
the repository's own test suite) expects.  The wire-shaped request
(`request_type = "LOGIN"`, as `api.py` sends it) is rejected by the
dispatcher with `ValueError`; the AUTH-shaped request reaches
`handle_auth`, where `db_password, = cursor.fetchone()` unpacks `None`
and raises `TypeError`.  Only the existing-user/wrong-password half of
the claim holds. -/
theorem login_missing_user_raises :
    (∀ (st : NodeState) (req : Request), req.request_type = "LOGIN" →
      req.id ∉ st.request_ids →
      execute_request st req = Except.error (PyError.valueError "Invalid request type.")) ∧
    (∀ (st : NodeState) (req : Request), req.request_type = "AUTH" →
      req.action_type = "LOGIN" → req.id ∉ st.request_ids →
      lookupPassword st.db.users req.username = none →
      execute_request st req =
        Except.error (PyError.typeError "cannot unpack non-iterable NoneType object")) ∧
    (∀ (st : NodeState) (req : Request) (db_password : String), req.request_type = "AUTH" →
      req.action_type = "LOGIN" → req.id ∉ st.request_ids →
      lookupPassword st.db.users req.username = some db_password →
      req.password ≠ db_password →
      execute_request st req = Except.ok (some (Response.error "Invalid username or password."),
        { st with request_ids := req.id :: st.request_ids })) := by
  refine ⟨?_, ?_, ?_⟩
  · intro st req hT hNew
    simp [execute_request, if_neg hNew, dispatch, hT]
  · intro st req hT hA hNew hLook
    simp [execute_request, if_neg hNew, dispatch, hT, hA, handle_auth, hLook]
  · intro st req db_password hT hA hNew hLook hNe
    simp [execute_request, if_neg hNew, dispatch, hT, hA, handle_auth, hLook, hNe, create_error]

/-- C5, witness: `login("jason", ...)` on a fresh node under both wire
shapes, and a wrong-password LOGIN against an existing user. -/
theorem login_missing_user_raises_witness :
    execute_request freshNode { id := "l1", request_type := "LOGIN", username := "jason", password := "pw" } =
      Except.error (PyError.valueError "Invalid request type.") ∧
    (lookupPassword freshNode.db.users "jason" = none ∧
      execute_request freshNode
        { id := "l2", request_type := "AUTH", action_type := "LOGIN",
          username := "jason", password := "pw" } =
        Except.error (PyError.typeError "cannot unpack non-iterable NoneType object")) ∧
    (lookupPassword jasonNode.db.users "jason" = some "pw" ∧
      execute_request jasonNode
        { id := "l3", request_type := "AUTH", action_type := "LOGIN",
          username := "jason", password := "wrong_password" } =
        Except.ok (some (Response.error "Invalid username or password."),
          { jasonNode with request_ids := "l3" :: jasonNode.request_ids })) := by
  refine ⟨?_, ⟨by decide, ?_⟩, ⟨by decide, ?_⟩⟩
  · exact login_missing_user_raises.1 freshNode _ rfl (by decide)
  · exact login_missing_user_raises.2.1 freshNode _ rfl rfl (by decide) (by decide)
  · exact login_missing_user_raises.2.2 jasonNode _ "pw" rfl rfl (by decide) (by decide) (by decide)

/-! ## C6 — GetCommits -/

/-- C6: the `GetCommits` handler never returns any commits: its query
selects the non-existent column `query` from the `commits` table (whose
columns are `id, request`), so SQLite raises `OperationalError` on every
call — in particular it never answers with the commits whose id exceeds
`latest_commit_id` in id order (`getCommitsSpec`), as the spec
describes. -/
theorem getCommits_always_raises (db : DbState) (latest_commit_id : Nat) :
    GetCommits db latest_commit_id =
      Except.error (PyError.operationalError "no such column: query") ∧
    GetCommits db latest_commit_id ≠ Except.ok (getCommitsSpec db latest_commit_id) := by
  exact ⟨rfl, by simp [GetCommits]⟩

/-- C6, witness: the handler also fails on a concrete one-commit log. -/
theorem getCommits_always_raises_witness :
    GetCommits jasonNode.db 0 =
      Except.error (PyError.operationalError "no such column: query") ∧
    GetCommits jasonNode.db 0 ≠ Except.ok (getCommitsSpec jasonNode.db 0) :=
  getCommits_always_raises jasonNode.db 0

/-! ## C7 — Coordinator -/

/-- C7: a `Coordinator` announcement with `leader_id ≤ self` fails the
assertion and changes nothing; if the announcement is acknowledged
(no exception), the node has recorded the announced leader and the
request id of every commit in the attached history whose id exceeds the
node's previous maximum is in its dedup set — i.e. each such commit has
been applied (now, or already before via deduplication). -/
theorem coordinator_contract (st : NodeState) (L : Nat) (hist : List (Nat × Request)) :
    (L ≤ st.server_id →
      Coordinator st L hist =
        (st, some (PyError.assertionError "Leader ID must be larger than our own ID."))) ∧
    (∀ st', Coordinator st L hist = (st', none) →
      st'.leader_id = some L ∧
      ∀ c ∈ hist, get_latest_commit_id st.db < c.1 → c.2.id ∈ st'.request_ids) := by
  constructor
  · intro hL
    unfold Coordinator
    rw [if_neg (by omega)]
  · intro st' h
    unfold Coordinator at h
    split at h
    · cases ha : apply_commits st (hist.filter fun c => get_latest_commit_id st.db < c.1) with
      | mk st2 o =>
        rw [ha] at h
        cases o with
        | some e => simp at h
        | none =>
          simp only [Prod.mk.injEq, and_true] at h
          rw [← h]
          refine ⟨rfl, ?_⟩
          intro c hc hlt
          exact (apply_commits_ids ha).2 c (List.mem_filter.mpr ⟨hc, by simpa using hlt⟩)
    · simp at h

/-- C7, witness: a rejected announcement (`leader_id = 1 ≤ 1`) and an
acknowledged one that applies the attached commit. -/
theorem coordinator_contract_witness :
    (1 ≤ jasonNode.server_id ∧
      Coordinator jasonNode 1 [] =
        (jasonNode, some (PyError.assertionError "Leader ID must be larger than our own ID."))) ∧
    (Coordinator freshNode 2 [(1, createJason)] =
        ({ jasonNode with leader_id := some 2 }, none) ∧
      ({ jasonNode with leader_id := some 2 } : NodeState).leader_id = some 2 ∧
      "r1" ∈ ({ jasonNode with leader_id := some 2 } : NodeState).request_ids) := by
  refine ⟨⟨by decide, ?_⟩, ⟨?_, ?_, ?_⟩⟩
  · exact (coordinator_contract jasonNode 1 []).1 (by decide)
  · rfl
  · exact ((coordinator_contract freshNode 2 [(1, createJason)]).2 _ rfl).1
  · exact ((coordinator_contract freshNode 2 [(1, createJason)]).2 _ rfl).2
      (1, createJason) (by simp) (by decide)

/-! ## C8 — READ_MESSAGES -/

/-- C8, counterexample: a READ_MESSAGES with an empty id list does not
return OK — the `",".join`-built placeholder list is empty, the statement
becomes `UPDATE ... WHERE id in ()`, and SQLite raises a syntax error. -/
theorem read_messages_empty_raises :
    execute_request freshNode { id := "e1", request_type := "READ_MESSAGES", message_ids := [] } =
      Except.error (PyError.operationalError "near \")\": syntax error") := by
  rfl

/-- C8 (amended): for every non-empty list of message ids, READ_MESSAGES
sets `read := true` on exactly the listed ids (every other message is
mapped to itself), appends a commit, and returns OK — the handler has no
error response; the empty list instead raises the SQLite syntax error. -/
theorem read_messages_contract (st : NodeState) (req : Request)
    (hT : req.request_type = "READ_MESSAGES") (hNew : req.id ∉ st.request_ids) :
    (req.message_ids = [] →
      execute_request st req =
        Except.error (PyError.operationalError "near \")\": syntax error")) ∧
    (req.message_ids ≠ [] →
      execute_request st req = Except.ok (some Response.ok,
        { st with
          db := append_commit
            { st.db with
              messages := st.db.messages.map
                (fun m => if m.id ∈ req.message_ids then { m with read := true } else m) }
            req,
          request_ids := req.id :: st.request_ids })) := by
  constructor
  · intro hE
    simp [execute_request, if_neg hNew, dispatch, hT, handle_read_messages, hE]
  · intro hNE
    have hE : req.message_ids.isEmpty = false := by
      cases hc : req.message_ids with
      | nil => exact absurd hc hNE
      | cons a l => rfl
    simp [execute_request, if_neg hNew, dispatch, hT, handle_read_messages, hE]

/-- C8, witness: both branches — reading the one message addressed to
`rajiv`, and the empty list. -/
theorem read_messages_contract_witness :
    (([] : List String) = [] ∧
      execute_request rajivNode { id := "e2", request_type := "READ_MESSAGES", message_ids := [] } =
        Except.error (PyError.operationalError "near \")\": syntax error")) ∧
    ((["m1"] : List String) ≠ [] ∧
      execute_request rajivNode { id := "e3", request_type := "READ_MESSAGES", message_ids := ["m1"] } =
        Except.ok (some Response.ok,
          { server_id := 1,
            db := ⟨[("rajiv", "pw")], [{ rajivMsg with read := true }],
              [(1, { id := "e3", request_type := "READ_MESSAGES", message_ids := ["m1"] })]⟩,
            request_ids := ["e3"] })) := by
  refine ⟨⟨rfl, ?_⟩, ⟨by decide, ?_⟩⟩
  · exact (read_messages_contract rajivNode _ rfl (by decide)).1 rfl
  · have h := (read_messages_contract rajivNode
      { id := "e3", request_type := "READ_MESSAGES", message_ids := ["m1"] }
      rfl (by decide)).2 (by decide)
    exact h.trans (by rfl)

/-! ## C9 — election flag on every exit path -/

/-- A commit blob whose request type no handler knows: replaying it makes
`execute_request` raise `ValueError`, the kind of non-RPC exception that
escapes `synchronize_commits`. -/
def bogusReply : List (Option (List (Nat × Request))) :=
  [some [(1, { id := "rb", request_type := "BOGUS" })]]

/-- C9, counterexample: starting an election on an idle node with no
higher responder, when a peer reply carries a commit whose application
raises, ends the run with the exception escaped and
`election_in_progress` still `true` — the flag is not cleared on the
exception exit path. -/
theorem election_flag_leak :
    (start_election freshNode false bogusReply).2 =
      some (PyError.valueError "Invalid request type.") ∧
    (start_election freshNode false bogusReply).1.election_in_progress = true := by
  exact ⟨rfl, rfl⟩

/-- C9 (amended): a trigger while an election is in progress returns at
once without changing state; a freshly started election clears the flag
on the rejection path (some higher peer responded) and on the winning
path (synchronization succeeded, leader set to self); but when an
exception escapes commit synchronization, the run ends with the flag
still set. -/
theorem start_election_contract (st : NodeState) (hr : Bool)
    (replies : List (Option (List (Nat × Request)))) :
    (st.election_in_progress = true → start_election st hr replies = (st, none)) ∧
    (st.election_in_progress = false → hr = true →
      start_election st hr replies =
        ({ st with leader_id := none, election_in_progress := false }, none)) ∧
    (st.election_in_progress = false → hr = false →
      ∀ st2, synchronize_commits
          { st with leader_id := none, election_in_progress := true } replies = (st2, none) →
        start_election st hr replies =
          ({ st2 with leader_id := some st.server_id, election_in_progress := false }, none)) ∧
    (st.election_in_progress = false → hr = false →
      ∀ st2 e, synchronize_commits
          { st with leader_id := none, election_in_progress := true } replies = (st2, some e) →
        start_election st hr replies = (st2, some e) ∧ st2.election_in_progress = true) := by
  refine ⟨?_, ?_, ?_, ?_⟩
  · intro h
    simp [start_election, h]
  · intro h1 h2
    simp [start_election, h1, h2]
  · intro h1 h2 st2 hsync
    simp [start_election, h1, h2, hsync]
  · intro h1 h2 st2 e hsync
    constructor
    · simp [start_election, h1, h2, hsync]
    · have hf := @synchronize_commits_election_fields replies
        { st with leader_id := none, election_in_progress := true }
      rw [hsync] at hf
      exact hf.1

/-- C9, witness: all four exit paths at concrete inputs — busy no-op,
rejection, a winning run (peer unreachable), and the escaping
exception. -/
theorem start_election_contract_witness :
    (({ freshNode with election_in_progress := true } : NodeState).election_in_progress = true ∧
      start_election { freshNode with election_in_progress := true } false [] =
        ({ freshNode with election_in_progress := true }, none)) ∧
    (start_election freshNode true [] =
      ({ freshNode with leader_id := none, election_in_progress := false }, none)) ∧
    (synchronize_commits { freshNode with leader_id := none, election_in_progress := true } [none] =
        ({ freshNode with leader_id := none, election_in_progress := true }, none) ∧
      start_election freshNode false [none] =
        ({ freshNode with leader_id := some 1, election_in_progress := false }, none)) ∧
    (start_election freshNode false bogusReply =
        ({ freshNode with leader_id := none, election_in_progress := true },
          some (PyError.valueError "Invalid request type.")) ∧
      ({ freshNode with leader_id := none, election_in_progress := true } : NodeState).election_in_progress = true) := by
  refine ⟨⟨rfl, ?_⟩, ?_, ⟨rfl, ?_⟩, ?_⟩
  · exact (start_election_contract { freshNode with election_in_progress := true } false []).1 rfl
  · exact (start_election_contract freshNode true []).2.1 rfl rfl
  · exact (start_election_contract freshNode false [none]).2.2.1 rfl rfl
      { freshNode with leader_id := none, election_in_progress := true } rfl
  · exact (start_election_contract freshNode false bogusReply).2.2.2 rfl rfl
      { freshNode with leader_id := none, election_in_progress := true }
      (PyError.valueError "Invalid request type.") rfl
